import Mathlib

/-!
Verification of `biglinux-snapshot-restore.py` (grub-btrfs-timeshift).

The script is a linear orchestration wrapper: it parses `/proc/cmdline`
with two regular expressions, shells out to `btrfs`, `timeshift`,
`grub-mkconfig`, `killall` and `reboot`, and reacts to exit codes.  The
definitions below are a shallow embedding of that logic: file contents
and process results are passed in explicitly, pure functions mirror the
Python bodies statement by statement, and the exception behaviour of
each `try`/`except` block is made explicit with `Except`/`Option`.
Strings are modelled as `List Char`; Python `\s` is modelled by its
ASCII subset (kernel command lines are ASCII).
-/

/-- ASCII whitespace, the characters matched by `\s` on the inputs in scope. -/
def pyIsSpace (c : Char) : Bool :=
  c = ' ' || c = '\t' || c = '\n' || c = '\r' || c = '\x0b' || c = '\x0c'

/-- Python `needle in hay` on strings: substring containment, embedded as a
left-to-right scan. -/
def containsL (hay needle : List Char) : Bool :=
  needle.isPrefixOf hay ||
    match hay with
    | [] => false
    | _ :: t => containsL t needle

/-- Python `str.strip()`: drop leading and trailing whitespace. -/
def pyStrip (s : List Char) : List Char :=
  ((s.dropWhile pyIsSpace).reverse.dropWhile pyIsSpace).reverse

/-- Model of `re.search(marker ++ "(<capture>+)", hay)` for a literal `marker` followed
by a nonempty greedy run of characters rejected by `stop`: scan left to right;
at the first position where the literal matches and the captured run is
nonempty, return the run.  A position where the literal matches but the run is
empty is skipped, as the regex engine does. -/
def reSearchCapture (marker : List Char) (stop : Char → Bool) : List Char → Option (List Char)
  | [] => none
  | c :: t =>
    if marker.isPrefixOf (c :: t) then
      let cap := ((c :: t).drop marker.length).takeWhile (fun ch => !stop ch)
      if cap.isEmpty then reSearchCapture marker stop t else some cap
    else reSearchCapture marker stop t

/-- Python `s.split('\n')`: always nonempty, keeps empty segments. -/
def splitNl : List Char → List (List Char)
  | [] => [[]]
  | c :: t =>
    if c = '\n' then [] :: splitNl t
    else
      match splitNl t with
      | [] => [[c]]
      | h :: r => (c :: h) :: r

/-- Numeric value of a decimal digit character. -/
def dval (c : Char) : Nat := c.toNat - 48

/-- The `strptime` day field, regex `3[01]|[12]\d|0[1-9]|[1-9]`, alternatives in
engine order, each required to consume the whole remaining input (the day is
the last field of the format `%Y-%m-%d`). -/
def dayFull (s : List Char) : Option Nat :=
  (match s with
   | ['3', c] => if c = '0' || c = '1' then some (30 + dval c) else none
   | _ => none) <|>
  (match s with
   | [c1, c2] => if (c1 = '1' || c1 = '2') && c2.isDigit then some (10 * dval c1 + dval c2) else none
   | _ => none) <|>
  (match s with
   | ['0', c] => if '1' ≤ c && c ≤ '9' then some (dval c) else none
   | _ => none) <|>
  (match s with
   | [c] => if '1' ≤ c && c ≤ '9' then some (dval c) else none
   | _ => none)

/-- After the month field the format has a literal `-` and then the day. -/
def contDay : List Char → Option Nat
  | '-' :: r => dayFull r
  | _ => none

/-- The `strptime` month field, regex `1[0-2]|0[1-9]|[1-9]`, alternatives in
engine order with backtracking into the rest of the format. -/
def monthDay (s : List Char) : Option (Nat × Nat) :=
  (match s with
   | '1' :: c :: rest =>
     if '0' ≤ c && c ≤ '2' then (contDay rest).map (fun d => (10 + dval c, d)) else none
   | _ => none) <|>
  (match s with
   | '0' :: c :: rest =>
     if '1' ≤ c && c ≤ '9' then (contDay rest).map (fun d => (dval c, d)) else none
   | _ => none) <|>
  (match s with
   | c :: rest =>
     if '1' ≤ c && c ≤ '9' then (contDay rest).map (fun d => (dval c, d)) else none
   | _ => none)

/-- The regex part of `datetime.strptime(s, '%Y-%m-%d')`: `%Y` is exactly four
digits, then a literal `-`, then month and day as above, consuming all of `s`. -/
def strptimeYMD : List Char → Option (Nat × Nat × Nat)
  | y1 :: y2 :: y3 :: y4 :: '-' :: rest =>
    if y1.isDigit && y2.isDigit && y3.isDigit && y4.isDigit then
      (monthDay rest).map
        (fun p => (1000 * dval y1 + 100 * dval y2 + 10 * dval y3 + dval y4, p.1, p.2))
    else none
  | _ => none

/-- Gregorian leap year, as `datetime` uses. -/
def isLeap (y : Nat) : Bool := y % 4 = 0 && (y % 100 ≠ 0 || y % 400 = 0)

/-- Days in a month, as validated by the `datetime` constructor. -/
def daysInMonth (y m : Nat) : Nat :=
  if m = 2 then (if isLeap y then 29 else 28)
  else if m = 4 || m = 6 || m = 9 || m = 11 then 30
  else 31

/-- The `datetime(y, m, d)` constructor checks (month range is already
guaranteed by the regex; `MINYEAR` is 1). -/
def validDate (y m d : Nat) : Bool :=
  1 ≤ y && 1 ≤ m && m ≤ 12 && 1 ≤ d && d ≤ daysInMonth y m

/-- Full `datetime.strptime(s, '%Y-%m-%d')`, `none` standing for `ValueError`. -/
def dateParse (s : List Char) : Option (Nat × Nat × Nat) :=
  match strptimeYMD s with
  | none => none
  | some (y, m, d) => if validDate y m d then some (y, m, d) else none

/-- Decimal rendering zero-padded to width two, as `strftime` `%d` and `%m`. -/
def pad2 (n : Nat) : List Char :=
  if n < 10 then ['0', Nat.digitChar n] else Nat.toDigits 10 n

/-- Model of `strftime('%d/%m/%Y')`: two-digit day and month; `%Y` prints the year in
decimal without padding (glibc behaviour; every parsed year has four digits
anyway). -/
def fmtDate (y m d : Nat) : List Char :=
  pad2 d ++ '/' :: pad2 m ++ '/' :: Nat.toDigits 10 y

/-- The stop set of the snapshot-name capture `[^/@\s]+`. -/
def snapStop (c : Char) : Bool := c = '/' || c = '@' || pyIsSpace c

/-- Literal of the `subvol=([^\s]+)` search. -/
def subvolLit : List Char := "subvol=".toList

/-- Literal of the `timeshift-btrfs/snapshots/([^/@\s]+)` search. -/
def snapMarker : List Char := "timeshift-btrfs/snapshots/".toList

/-- The dictionary returned by `SnapshotDetector.get_snapshot_info`. -/
structure SnapshotInfo where
  name : List Char
  path : List Char
  date : List Char
  time : List Char
  raw_date : List Char
  raw_time : List Char
deriving DecidableEq, Repr

/-- Function `SnapshotDetector.get_snapshot_info`, lines 54-91, applied to the already
stripped command line: extract the `subvol=` value (empty if absent), extract
the snapshot directory segment, split it at its first underscore into date and
time tokens (time defaulting to `00-00-00`), parse the date token with
`strptime('%Y-%m-%d')` and return the formatted record, or `none` when the
segment is absent or the date token does not parse. -/
def get_snapshot_info (cmdline : List Char) : Option SnapshotInfo :=
  let subvol_path := (reSearchCapture subvolLit pyIsSpace cmdline).getD []
  match reSearchCapture snapMarker snapStop cmdline with
  | none => none
  | some snapshot_name =>
    let date_part := snapshot_name.takeWhile (fun c => c != '_')
    let time_part :=
      if snapshot_name.contains '_' then
        ((snapshot_name.dropWhile (fun c => c != '_')).tail).takeWhile (fun c => c != '_')
      else "00-00-00".toList
    match dateParse date_part with
    | none => none
    | some (y, m, d) =>
      some { name := snapshot_name
             path := subvol_path
             date := fmtDate y m d
             time := time_part.map (fun c => if c = '-' then ':' else c)
             raw_date := date_part
             raw_time := time_part }

/-- Variant of `get_snapshot_info` on the raw `/proc/cmdline` contents, which the code
strips on read (line 58). -/
def get_snapshot_info_raw (content : List Char) : Option SnapshotInfo :=
  get_snapshot_info (pyStrip content)

/-- Result of a completed external process (`subprocess` with
`capture_output=True, text=True`): `returncode`, `stdout`, `stderr`. -/
structure ProcResult where
  exitCode : Int
  stdout : String
  stderr : String
deriving DecidableEq, Repr

/-- Outcome of trying to launch an external command: either it ran to
completion, or launching it raised (e.g. `FileNotFoundError` for a missing
binary); `exn` carries the `str()` form of the exception. -/
inductive LaunchResult where
  | ok (r : ProcResult)
  | exn (msg : String)
deriving DecidableEq, Repr

/-- The exceptions `subprocess.run` can raise in this program. -/
inductive PyExn where
  | calledProcessError (r : ProcResult)
  | osError (msg : String)
deriving DecidableEq, Repr

/-- The `str()` form of such an exception. -/
def pyExnStr : PyExn → String
  | .calledProcessError r => "Command returned non-zero exit status " ++ toString r.exitCode ++ "."
  | .osError m => m

/-- Model of `subprocess.run(cmd, capture_output=True, ..., check=check)`: a launch
failure raises an `OSError`; with `check=True` a non-zero exit raises
`CalledProcessError` carrying the captured output. -/
def pyRun (check : Bool) : LaunchResult → Except PyExn ProcResult
  | .exn m => .error (.osError m)
  | .ok r => if check && r.exitCode ≠ 0 then .error (.calledProcessError r) else .ok r

/-- Function `BtrfsManager.list_subvolumes`, lines 98-105: run
`btrfs subvolume list /` with `check=True`; the `except` clause catches only
`CalledProcessError` (returning `""`), so a launch failure propagates. -/
def list_subvolumes (launch : LaunchResult) : Except String String :=
  match pyRun true launch with
  | .ok r => .ok r.stdout
  | .error (.calledProcessError _) => .ok ""
  | .error (.osError m) => .error m

/-- The pure containment test of `BtrfsManager.check_root_subvolume_exists`,
line 111: `'path @\n' in subvolumes or 'path @' in subvolumes.split('\n')[-1]`. -/
def check_root_subvolume_exists (subvolumes : List Char) : Bool :=
  containsL subvolumes "path @\n".toList ||
    containsL ((splitNl subvolumes).getLastD []) "path @".toList

/-- Function `BtrfsManager.check_root_subvolume_exists` including the
`list_subvolumes` call it makes (whose launch failure propagates). -/
def check_root_run (launch : LaunchResult) : Except String Bool :=
  (list_subvolumes launch).map (fun s => check_root_subvolume_exists s.toList)

/-- Function `GrubManager.regenerate_config`, lines 118-125: run
`grub-mkconfig -o /boot/grub/grub.cfg` with `check=True`; on success return
`(True, stdout)`, on `CalledProcessError` return `(False, e.stderr)`; a launch
failure propagates. -/
def regenerate_config (launch : LaunchResult) : Except String (Bool × String) :=
  match pyRun true launch with
  | .ok r => .ok (true, r.stdout)
  | .error (.calledProcessError r) => .ok (false, r.stderr)
  | .error (.osError m) => .error m

/-- Function `GrubManager.verify_config`, lines 128-135: `none` models an unreadable
or missing `/boot/grub/grub.cfg` (any `Exception` on open/read yields
`False`); otherwise test for the literal marker substring. -/
def verify_config (cfg : Option (List Char)) : Bool :=
  match cfg with
  | none => false
  | some content => containsL content "rootflags=subvol=".toList

/-- Environment of one `TimeshiftManager.restore_snapshot` call: the
`killall timeshift-gtk` invocation and the
`timeshift --restore --snapshot <name> --scripted --yes` process. -/
structure RestoreEnv where
  killall : LaunchResult
  timeshift : LaunchResult
deriving DecidableEq, Repr

/-- Method `TimeshiftManager.restore_snapshot`, lines 144-170: the whole body is
wrapped in `try`/`except Exception`, which returns `(False, str(e))`.
`killall` runs without `check`, so only a launch failure can raise there;
then the timeshift process is spawned (launch failure raises), its output is
collected, and the pair is `(True, stdout)` exactly when the exit code is 0,
else `(False, stderr)`. -/
def restore_snapshot (env : RestoreEnv) : Bool × String :=
  match pyRun false env.killall with
  | .error e => (false, pyExnStr e)
  | .ok _ =>
    match env.timeshift with
    | .exn m => (false, m)
    | .ok r => if r.exitCode = 0 then (true, r.stdout) else (false, r.stderr)

/-- Terminal event a restore attempt posts back to the main loop: either
`_restoration_completed` or `_restoration_failed` with its message. -/
inductive TerminalEvent where
  | completed
  | failed (msg : String)
deriving DecidableEq, Repr

/-- The fixed message of line 398. -/
def grubFailMsg : String := "GRUB configuration regeneration failed"

/-- Environment of one `_restore_thread` run: the two `btrfs subvolume list`
invocations, the restore call, the `grub-mkconfig` invocation and the
`grub.cfg` contents read by `verify_config`. -/
structure AttemptEnv where
  preList : LaunchResult
  restoreEnv : RestoreEnv
  postList : LaunchResult
  grubRegen : LaunchResult
  grubCfg : Option (List Char)
deriving DecidableEq, Repr

/-- Method `SnapshotRestoreApp._restore_thread`, lines 368-404: check the root
subvolume (result unused, but a propagated exception reaches the outer
`except` and fails the attempt with `str(e)`), run the restore, check again,
regenerate GRUB, and post `completed` when regeneration succeeded and
`verify_config` holds, else `failed` with the fixed message; a restore
failure posts `failed` with the prefixed restore output. -/
def restore_thread (env : AttemptEnv) : TerminalEvent :=
  match check_root_run env.preList with
  | .error e => .failed e
  | .ok _ =>
    match restore_snapshot env.restoreEnv with
    | (succ, output) =>
      if succ then
        match check_root_run env.postList with
        | .error e => .failed e
        | .ok _ =>
          match regenerate_config env.grubRegen with
          | .error e => .failed e
          | .ok (grub_success, _) =>
            if grub_success && verify_config env.grubCfg then .completed
            else .failed grubFailMsg
      else .failed ("Timeshift restoration failed: " ++ output)

/-- The mutable flags of `SnapshotRestoreApp` that drive the control flow. -/
structure AppState where
  is_restoring : Bool
  is_restored : Bool
deriving DecidableEq, Repr

/-- Externally visible actions a confirm click can start. -/
inductive UIEffect where
  | rebootInvoked
  | restoreStarted
deriving DecidableEq, Repr

/-- Handler `on_restore_clicked` (lines 343-348) together with the guard of
`restore_system` (lines 350-356): with `is_restored` set the click calls
`reboot_system` (one `reboot` invocation); otherwise it starts a restore
unless one is already running, in which case it is a no-op. -/
def on_restore_clicked (s : AppState) : AppState × List UIEffect :=
  if s.is_restored then (s, [.rebootInvoked])
  else if s.is_restoring then (s, [])
  else ({ s with is_restoring := true }, [.restoreStarted])

/-- Handler `_restoration_completed`, lines 412-426: clear `is_restoring`, set
`is_restored`. -/
def restoration_completed (s : AppState) : AppState :=
  { s with is_restoring := false, is_restored := true }

/-- Handler `_restoration_failed`, lines 428-439: clear `is_restoring`. -/
def restoration_failed (s : AppState) : AppState :=
  { s with is_restoring := false }

/-- Delivery of the thread's terminal event on the main loop. -/
def applyTerminal (s : AppState) : TerminalEvent → AppState
  | .completed => restoration_completed s
  | .failed _ => restoration_failed s

/-- Iteration of `n` successive confirm clicks, collecting the emitted effects in order. -/
def clicks : Nat → AppState → AppState × List UIEffect
  | 0, s => (s, [])
  | n + 1, s =>
    match on_restore_clicked s with
    | (s1, es) =>
      match clicks n s1 with
      | (s2, es2) => (s2, es ++ es2)

/-- Written from the spec wording of claim C3 only, for comparison with the
code: a date token matching `YYYY-MM-DD` exactly, i.e. four digits, a hyphen,
two digits, a hyphen, two digits. -/
def specDateYYYYMMDD (s : List Char) : Bool :=
  match s with
  | [a, b, c, d, '-', e, f, '-', g, h] =>
    a.isDigit && b.isDigit && c.isDigit && d.isDigit &&
      e.isDigit && f.isDigit && g.isDigit && h.isDigit
  | _ => false

/-- Python `str.endswith`, used only to state the spec's reading in C4. -/
def suffixL (hay needle : List Char) : Bool :=
  needle.reverse.isPrefixOf hay.reverse

/-- Written from the spec wording of claim C4 only, for comparison with the
code: an entry matched as a line ending in `path @` followed by a newline, or
as the final line of output ending in `path @`. -/
def specRootSubvolumeExists (subvolumes : List Char) : Bool :=
  containsL subvolumes "path @\n".toList ||
    suffixL ((splitNl subvolumes).getLastD []) "path @".toList

/-! ## Helper lemmas -/

/-- The executable substring scan agrees with mathematical infix containment. -/
theorem containsL_correct (hay needle : List Char) :
    containsL hay needle = true ↔ needle <:+: hay := by
  induction hay with
  | nil =>
    simp [containsL]
  | cons a t ih =>
    rw [containsL]
    simp [List.infix_cons_iff, ih, Bool.or_eq_true]

/-- A search for a literal marker that does not occur as a substring finds
nothing. -/
theorem reSearchCapture_eq_none (marker : List Char) (stop : Char → Bool) (hay : List Char)
    (h : containsL hay marker = false) : reSearchCapture marker stop hay = none := by
  induction hay with
  | nil => rfl
  | cons a t ih =>
    rw [containsL] at h
    rcases Bool.or_eq_false_iff.mp h with ⟨h1, h2⟩
    rw [reSearchCapture, h1]
    exact ih h2

/-! ## Claims -/

/-- C1: for every invocation of `restore_snapshot` in which the restore
process is actually launched, the outcome succeeds iff the process exit code
is exactly 0; on success the message is the captured stdout and on any
non-zero exit code the message is the captured stderr, verbatim (the
best-effort `killall` result, `kr`, never affects this). -/
theorem restore_snapshot_success_iff_exit_zero (kr r : ProcResult) :
    ((restore_snapshot ⟨.ok kr, .ok r⟩).1 = true ↔ r.exitCode = 0) ∧
    (r.exitCode = 0 → restore_snapshot ⟨.ok kr, .ok r⟩ = (true, r.stdout)) ∧
    (r.exitCode ≠ 0 → restore_snapshot ⟨.ok kr, .ok r⟩ = (false, r.stderr)) := by
  by_cases h : r.exitCode = 0 <;> simp [restore_snapshot, pyRun, h]

/-- Witness for C1 at concrete inputs: exit 0 yields the stdout, exit 1 the
stderr, even when `killall` exited non-zero. -/
theorem restore_snapshot_success_iff_exit_zero_witness :
    restore_snapshot ⟨.ok ⟨1, "", "no process"⟩, .ok ⟨0, "ok", ""⟩⟩ = (true, "ok") ∧
    restore_snapshot ⟨.ok ⟨0, "", ""⟩, .ok ⟨1, "", "boom"⟩⟩ = (false, "boom") :=
  ⟨(restore_snapshot_success_iff_exit_zero ⟨1, "", "no process"⟩ ⟨0, "ok", ""⟩).2.1 rfl,
   (restore_snapshot_success_iff_exit_zero ⟨0, "", ""⟩ ⟨1, "", "boom"⟩).2.2 (by decide)⟩

/-- C9: `restore_snapshot` never propagates an exception: when the `killall`
invocation raises, or the restore binary is absent so the launch raises, the
exception is caught and the pair `(false, str(e))` is returned. -/
theorem restore_snapshot_exceptions_returned :
    (∀ (m : String) (tl : LaunchResult), restore_snapshot ⟨.exn m, tl⟩ = (false, m)) ∧
    (∀ (kr : ProcResult) (m : String), restore_snapshot ⟨.ok kr, .exn m⟩ = (false, m)) := by
  constructor
  · intro m tl; rfl
  · intro kr m; simp [restore_snapshot, pyRun]

/-- C7: `verify_config` returns true iff the config file is readable and its
content contains the literal substring `rootflags=subvol=`; a missing or
unreadable file gives `false`, not an error. -/
theorem verify_config_marker_iff :
    (∀ content : List Char,
      verify_config (some content) = true ↔ "rootflags=subvol=".toList <:+: content) ∧
    verify_config none = false := by
  constructor
  · intro content
    simpa [verify_config] using containsL_correct content ("rootflags=subvol=".toList)
  · rfl

/-- Witness for C7 at concrete inputs: a config line carrying the marker
verifies, the unreadable file does not. -/
theorem verify_config_marker_iff_witness :
    verify_config (some "linux rootflags=subvol=@ ro quiet".toList) = true ∧
    verify_config none = false :=
  ⟨(verify_config_marker_iff.1 ("linux rootflags=subvol=@ ro quiet".toList)).mpr (by decide),
   verify_config_marker_iff.2⟩

/-- Counterexample to C5: when the subvolume-listing command cannot be
launched (`FileNotFoundError`), `list_subvolumes` does not return the empty
string — the exception propagates, because only `CalledProcessError` is
caught. -/
theorem list_subvolumes_launch_failure_counterexample :
    list_subvolumes (LaunchResult.exn "FileNotFoundError: btrfs") =
      Except.error "FileNotFoundError: btrfs" := rfl

/-- C5 as amended: `list_subvolumes` returns the raw stdout when the command
runs and exits 0 and the empty string when it exits non-zero, but a command
that cannot be launched raises to the caller. -/
theorem list_subvolumes_behavior :
    (∀ r : ProcResult,
      list_subvolumes (LaunchResult.ok r) =
        Except.ok (if r.exitCode = 0 then r.stdout else "")) ∧
    (∀ m : String, list_subvolumes (LaunchResult.exn m) = Except.error m) := by
  constructor
  · intro r; by_cases h : r.exitCode = 0 <;> simp [list_subvolumes, pyRun, h]
  · intro m; rfl

/-- Counterexample to C4: a listing whose final line is an entry named
`@home` makes `check_root_subvolume_exists` return true, because the final
line is tested with substring containment of `path @`, not with a suffix
match; the spec-side predicate (suffix match on the final line) is false
there. -/
theorem root_subvolume_match_counterexample :
    check_root_subvolume_exists ("ID 256 gen 5 top level 5 path @home".toList) = true ∧
    specRootSubvolumeExists ("ID 256 gen 5 top level 5 path @home".toList) = false := by
  decide

/-- C4 as amended: `check_root_subvolume_exists` returns true iff the listing
contains `path @` followed by a newline as a substring, or the final line of
the listing contains `path @` anywhere — so an entry such as `@home` on the
final line also matches. -/
theorem check_root_subvolume_exists_iff (s : List Char) :
    check_root_subvolume_exists s = true ↔
      ("path @\n".toList <:+: s ∨ "path @".toList <:+: (splitNl s).getLastD []) := by
  simp [check_root_subvolume_exists, Bool.or_eq_true, containsL_correct]

/-- Witness for C4 at a concrete input: a terminated `path @` line matches. -/
theorem check_root_subvolume_exists_iff_witness :
    check_root_subvolume_exists ("ID 257 gen 7 top level 5 path @\nID 258 path @home".toList) = true :=
  (check_root_subvolume_exists_iff ("ID 257 gen 7 top level 5 path @\nID 258 path @home".toList)).mpr
    (Or.inl (by decide))

/-- Counterexample to C3: the date token `2025-8-11` does not match
`YYYY-MM-DD` exactly (single-digit month), yet `get_snapshot_info` returns a
result, because `strptime('%Y-%m-%d')` also accepts one-digit months and
days. -/
theorem malformed_date_counterexample :
    reSearchCapture snapMarker snapStop
        ("timeshift-btrfs/snapshots/2025-8-11_23-00-00".toList) =
      some ("2025-8-11_23-00-00".toList) ∧
    specDateYYYYMMDD (("2025-8-11_23-00-00".toList).takeWhile (fun c => c != '_')) = false ∧
    get_snapshot_info ("timeshift-btrfs/snapshots/2025-8-11_23-00-00".toList) ≠ none := by
  decide

/-- C3 as amended: whenever the snapshot name segment is found but its date
token (the part before the first underscore) is not accepted by
`strptime('%Y-%m-%d')` — a four-digit year at least 0001, a one- or
two-digit month and day, the day valid for that month — `get_snapshot_info`
returns `none`, producing no partial result. -/
theorem invalid_date_token_yields_none (cmdline name : List Char)
    (hname : reSearchCapture snapMarker snapStop cmdline = some name)
    (hdate : dateParse (name.takeWhile (fun c => c != '_')) = none) :
    get_snapshot_info cmdline = none := by
  simp [get_snapshot_info, hname, hdate]

/-- Witness for C3 at a concrete input: `notadate` fails to parse, so the
whole result is `none`. -/
theorem invalid_date_token_yields_none_witness :
    get_snapshot_info ("timeshift-btrfs/snapshots/notadate_23-00-00".toList) = none :=
  invalid_date_token_yields_none ("timeshift-btrfs/snapshots/notadate_23-00-00".toList)
    ("notadate_23-00-00".toList) (by decide) (by decide)

/-- Counterexample to C6: a command line that contains both required
substrings but carries an earlier `subvol=` parameter; `re.search` takes the
first match, so the returned path is `/X`, not `/@/.snapshots/42/snapshot`. -/
theorem snapshot_info_first_match_counterexample :
    containsL
        ("subvol=/X timeshift-btrfs/snapshots/2025-08-11_23-00-00 subvol=/@/.snapshots/42/snapshot".toList)
        ("timeshift-btrfs/snapshots/2025-08-11_23-00-00".toList) = true ∧
    containsL
        ("subvol=/X timeshift-btrfs/snapshots/2025-08-11_23-00-00 subvol=/@/.snapshots/42/snapshot".toList)
        ("subvol=/@/.snapshots/42/snapshot".toList) = true ∧
    Option.map SnapshotInfo.path
        (get_snapshot_info
          ("subvol=/X timeshift-btrfs/snapshots/2025-08-11_23-00-00 subvol=/@/.snapshots/42/snapshot".toList)) =
      some ("/X".toList) := by
  decide

/-- C6 as amended: for every command line whose first `subvol=` match
captures `/@/.snapshots/42/snapshot` and whose first snapshot-marker match
captures `2025-08-11_23-00-00`, `get_snapshot_info` returns exactly the
record with that name and path, display date `11/08/2025` and display time
`23:00:00`. -/
theorem snapshot_info_canonical_cmdline (cmdline : List Char)
    (hsub : reSearchCapture subvolLit pyIsSpace cmdline = some ("/@/.snapshots/42/snapshot".toList))
    (hsnap : reSearchCapture snapMarker snapStop cmdline = some ("2025-08-11_23-00-00".toList)) :
    get_snapshot_info cmdline =
      some ⟨"2025-08-11_23-00-00".toList, "/@/.snapshots/42/snapshot".toList,
            "11/08/2025".toList, "23:00:00".toList,
            "2025-08-11".toList, "23-00-00".toList⟩ := by
  simp [get_snapshot_info, hsub, hsnap]
  decide

/-- Witness for C6 at a concrete command line containing both markers once. -/
theorem snapshot_info_canonical_cmdline_witness :
    get_snapshot_info
        ("root=UUID=ab12 rootflags=subvol=/@/.snapshots/42/snapshot rw timeshift-btrfs/snapshots/2025-08-11_23-00-00".toList) =
      some ⟨"2025-08-11_23-00-00".toList, "/@/.snapshots/42/snapshot".toList,
            "11/08/2025".toList, "23:00:00".toList,
            "2025-08-11".toList, "23-00-00".toList⟩ :=
  snapshot_info_canonical_cmdline
    ("root=UUID=ab12 rootflags=subvol=/@/.snapshots/42/snapshot rw timeshift-btrfs/snapshots/2025-08-11_23-00-00".toList)
    (by decide) (by decide)

/-- C10: a command line with a parseable snapshot name segment but no
`subvol=` substring yields a result whose path field is the empty string,
not `none`. -/
theorem missing_subvol_yields_empty_path (cmdline name : List Char) (y m d : Nat)
    (hno : containsL cmdline subvolLit = false)
    (hname : reSearchCapture snapMarker snapStop cmdline = some name)
    (hdate : dateParse (name.takeWhile (fun c => c != '_')) = some (y, m, d)) :
    (get_snapshot_info cmdline).isSome = true ∧
    Option.map SnapshotInfo.path (get_snapshot_info cmdline) = some [] := by
  have hs : reSearchCapture subvolLit pyIsSpace cmdline = none :=
    reSearchCapture_eq_none subvolLit pyIsSpace cmdline hno
  simp [get_snapshot_info, hs, hname, hdate]

/-- Witness for C10 at a concrete command line without any `subvol=`. -/
theorem missing_subvol_yields_empty_path_witness :
    (get_snapshot_info ("timeshift-btrfs/snapshots/2025-08-11_23-00-00".toList)).isSome = true ∧
    Option.map SnapshotInfo.path
        (get_snapshot_info ("timeshift-btrfs/snapshots/2025-08-11_23-00-00".toList)) = some [] :=
  missing_subvol_yields_empty_path ("timeshift-btrfs/snapshots/2025-08-11_23-00-00".toList)
    ("2025-08-11_23-00-00".toList) 2025 8 11 (by decide) (by decide) (by decide)

/-- C2: in any restore attempt where the restore invoker succeeds but the
GRUB regeneration exits non-zero or the verification of the regenerated
config fails, the worker posts `failed` with the fixed message of line 398 —
the regenerator's own captured stderr (`r.stderr`, arbitrary here) is
discarded — and delivering that event leaves the app no longer restoring. -/
theorem regen_or_verify_failure_yields_fixed_message (env : AttemptEnv) (b1 b2 : Bool)
    (r : ProcResult) (succOut : String)
    (hpre : check_root_run env.preList = Except.ok b1)
    (hres : restore_snapshot env.restoreEnv = (true, succOut))
    (hpost : check_root_run env.postList = Except.ok b2)
    (hgrub : env.grubRegen = LaunchResult.ok r)
    (hfail : r.exitCode ≠ 0 ∨ verify_config env.grubCfg = false) :
    restore_thread env = TerminalEvent.failed grubFailMsg ∧
    (∀ s : AppState, (applyTerminal s (restore_thread env)).is_restoring = false) := by
  have hmain : restore_thread env = TerminalEvent.failed grubFailMsg := by
    unfold restore_thread
    rw [hpre, hres, hpost, hgrub]
    rcases hfail with h | h
    · simp [regenerate_config, pyRun, h]
    · by_cases he : r.exitCode = 0 <;> simp [regenerate_config, pyRun, he, h]
  refine ⟨hmain, fun s => ?_⟩
  rw [hmain]
  rfl

/-- Witness for C2 at a concrete environment: restore succeeds, the
regenerator exits 1 with its own stderr text, and the posted failure carries
the fixed message instead. -/
theorem regen_or_verify_failure_yields_fixed_message_witness :
    restore_thread ⟨.ok ⟨0, "path @\n", ""⟩, ⟨.ok ⟨0, "", ""⟩, .ok ⟨0, "done", ""⟩⟩,
        .ok ⟨0, "path @\n", ""⟩, .ok ⟨1, "", "mkconfig: boom"⟩, some []⟩ =
      TerminalEvent.failed grubFailMsg :=
  (regen_or_verify_failure_yields_fixed_message
    ⟨.ok ⟨0, "path @\n", ""⟩, ⟨.ok ⟨0, "", ""⟩, .ok ⟨0, "done", ""⟩⟩,
        .ok ⟨0, "path @\n", ""⟩, .ok ⟨1, "", "mkconfig: boom"⟩, some []⟩
    true true ⟨1, "", "mkconfig: boom"⟩ "done"
    rfl rfl rfl rfl (Or.inl (by decide))).1

/-- C8: once a restore attempt ends in `completed` and the event is
delivered, the app is in the restored, non-restoring state; from there every
one of `n` subsequent confirm clicks invokes the reboot action exactly once
and nothing else — in particular no further restore is ever started and the
state never re-enters restoring. -/
theorem completed_confirm_reboots (env : AttemptEnv) (s : AppState) (n : Nat)
    (h : restore_thread env = TerminalEvent.completed) :
    clicks n (applyTerminal s (restore_thread env)) =
      (restoration_completed s, List.replicate n UIEffect.rebootInvoked) := by
  rw [h]
  show clicks n (restoration_completed s) = _
  induction n with
  | zero => rfl
  | succ k ih =>
    rw [clicks, on_restore_clicked]
    simp [restoration_completed] at ih ⊢
    rw [ih]
    simp [List.replicate_succ]

/-- Witness for C8 at a concrete fully successful environment: after
completion, two confirm clicks produce exactly two reboot invocations and
leave the state unchanged. -/
theorem completed_confirm_reboots_witness :
    clicks 2 (applyTerminal ⟨true, false⟩
        (restore_thread ⟨.ok ⟨0, "path @\n", ""⟩, ⟨.ok ⟨0, "", ""⟩, .ok ⟨0, "done", ""⟩⟩,
          .ok ⟨0, "path @\n", ""⟩, .ok ⟨0, "gen", ""⟩,
          some ("linux rootflags=subvol=/@ ro".toList)⟩)) =
      (restoration_completed ⟨true, false⟩, List.replicate 2 UIEffect.rebootInvoked) :=
  completed_confirm_reboots
    ⟨.ok ⟨0, "path @\n", ""⟩, ⟨.ok ⟨0, "", ""⟩, .ok ⟨0, "done", ""⟩⟩,
      .ok ⟨0, "path @\n", ""⟩, .ok ⟨0, "gen", ""⟩,
      some ("linux rootflags=subvol=/@ ro".toList)⟩
    ⟨true, false⟩ 2 (by decide)
